import Mathlib

/-!
Verification of the vmioplugin SDK contract (`src/sdk/vmioplugin/inc/vmioplugin.h`).

The repository consists of a single C header: enumerations, structures and
`static inline` functions are embedded directly from their C bodies; for the
`extern` entry points only declarations and doc-comment contracts exist in the
header, so their bodies are modelled from the specification (each such
definition is marked `Modelled from the spec:`).

Machine integers are modelled as `Nat` with explicit reduction `% 2 ^ 32`
where the C type is 32 bits wide; a C operation whose behavior is undefined
(null-pointer dereference, shift count not less than the operand width)
is modelled as `Option.none`.
-/

/-- Shallow embedding of `enum vmiop_error_e` (header lines 97-112):
the closed set of error codes for all plugin interfaces. -/
inductive vmiop_error_e
  | vmiop_success
  | vmiop_error_inval
  | vmiop_error_resource
  | vmiop_error_range
  | vmiop_error_read_only
  | vmiop_error_not_found
  | vmiop_error_no_address_space
  | vmiop_error_timeout
  | vmiop_error_not_allowed_in_callback
  deriving DecidableEq, Repr, Fintype

/-- The numeric value each `vmiop_error_e` enumerator carries in the header. -/
def vmiop_error_e.toCode : vmiop_error_e → Nat
  | .vmiop_success => 0
  | .vmiop_error_inval => 1
  | .vmiop_error_resource => 2
  | .vmiop_error_range => 3
  | .vmiop_error_read_only => 4
  | .vmiop_error_not_found => 5
  | .vmiop_error_no_address_space => 6
  | .vmiop_error_timeout => 7
  | .vmiop_error_not_allowed_in_callback => 8

/-- `vmiop_error_min = 0` from the header enumeration. -/
def vmiop_error_min : Nat := 0

/-- `vmiop_error_max = 8` (the highest number) from the header enumeration. -/
def vmiop_error_max : Nat := 8

/-- `vmiop_plugin_class_null = 0` (header lines 1201-1209). -/
def vmiop_plugin_class_null : Nat := 0

/-- `vmiop_plugin_class_display = 1` (header lines 1201-1209). -/
def vmiop_plugin_class_display : Nat := 1

/-- `vmiop_plugin_class_presentation = 9` (header lines 1201-1209). -/
def vmiop_plugin_class_presentation : Nat := 9

/-- `vmiop_plugin_class_max = 9` (header lines 1201-1209). -/
def vmiop_plugin_class_max : Nat := 9

/-- C left shift on the 32-bit unsigned type `vmiop_plugin_class_set_t`
(`typedef uint32_t`, header line 1223).  For an unsigned left operand the
result is reduced modulo `2 ^ 32`; per C11 6.5.7p3 the behavior is undefined
when the shift count is not less than the width of the promoted left
operand, modelled as `none`. -/
def uint32_shl (a b : Nat) : Option Nat :=
  if b < 32 then some ((a <<< b) % 2 ^ 32) else none

/-- Shallow embedding of the macro
`#define vmiop_const_plugin_class_to_mask(y) (((vmiop_plugin_class_set_t) 1ul) << (y))`
(header lines 1230-1231).  The cast applies to `1ul` before the shift, so the
shift operates on a 32-bit operand. -/
def vmiop_const_plugin_class_to_mask (y : Nat) : Option Nat :=
  uint32_shl 1 y

/-- Shallow embedding of the static inline
`vmiop_plugin_class_to_mask(y) { return(((vmiop_plugin_class_set_t) 1ul) << (y)); }`
(header lines 1238-1242), whose body is identical to the macro form. -/
def vmiop_plugin_class_to_mask (y : Nat) : Option Nat :=
  uint32_shl 1 y

/-- Shallow embedding of the static inline
`vmiop_plugin_class_in_set(x, y) { return(((x) & vmiop_plugin_class_to_mask(y)) != 0); }`
(header lines 1249-1254); `none` propagates the undefinedness of the mask. -/
def vmiop_plugin_class_in_set (x y : Nat) : Option Bool :=
  (vmiop_plugin_class_to_mask y).map (fun m => decide ((x &&& m) ≠ 0))

/-- Shallow embedding of `vmiop_buffer_element_t` (header lines 1285-1288):
`data_p` is a pointer into the payload region (`none` models NULL, `some k`
models a pointer at byte offset `k` of the buffer's allocated data area)
and `length` its length in bytes. -/
structure vmiop_buffer_element_t where
  data_p : Option Nat
  length : Nat
  deriving DecidableEq, Repr

/-- The release function attached to a buffer (`release_p`, a function
pointer in the C struct): either the standard `vmiop_buffer_free` routine
installed by `vmiop_buffer_alloc`, or a caller-substituted custom routine
identified by a tag. -/
inductive vmiop_buffer_release_fn
  | standard_free
  | custom (tag : Nat)
  deriving DecidableEq, Repr

/-- Shallow embedding of `struct vmiop_buffer_s` (header lines 1295-1312);
the intrusive `list_head` pointers are modelled as optional addresses. -/
structure vmiop_buffer_t where
  list_head : Option Nat × Option Nat
  source_class : Nat
  destination_class : Nat
  release_p : vmiop_buffer_release_fn
  references : Nat
  count : Nat
  element : List vmiop_buffer_element_t
  discard_config : Bool
  deriving DecidableEq, Repr

/-- Modelled from the spec: the body of `vmiop_buffer_free` is not in the
header (only its `extern` declaration, lines 1396-1410).  Per its doc
comment it decrements the reference count and, if it goes to zero, frees
the buffer (`none` in the second component means the storage was freed). -/
def vmiop_buffer_free (buf : vmiop_buffer_t) : vmiop_error_e × Option vmiop_buffer_t :=
  if buf.references ≤ 1 then (.vmiop_success, none)
  else (.vmiop_success, some { buf with references := buf.references - 1 })

/-- Shallow embedding of the static inline
`vmiop_buffer_release(buf_p) { return(buf_p->release_p(buf_p)); }`
(header lines 1324-1328).  The argument `none` models a NULL `buf_p`; the
body dereferences `buf_p` unconditionally to fetch `release_p`, so on NULL
the access is undefined, modelled as result `none`.  The behavior of a
caller-substituted release routine is supplied as the parameter `f`. -/
def vmiop_buffer_release
    (f : Nat → vmiop_buffer_t → vmiop_error_e × Option vmiop_buffer_t)
    (buf_p : Option vmiop_buffer_t) :
    Option (vmiop_error_e × Option vmiop_buffer_t) :=
  match buf_p with
  | none => none
  | some buf =>
    match buf.release_p with
    | .standard_free => some (vmiop_buffer_free buf)
    | .custom tag => some (f tag buf)

/-- A plugin class value is valid when it lies in the range of the
enumeration `vmiop_plugin_class_e` (header: values must be in the
enumeration, whose highest number is `vmiop_plugin_class_max = 9`). -/
def classValid (c : Nat) : Bool :=
  c ≤ vmiop_plugin_class_max

/-- Modelled from the spec: the body of `vmiop_buffer_alloc` is not in the
header (only its `extern` declaration and doc comment, lines 1362-1394).
Per the contract: `vmiop_error_inval` for an invalid class or zero
`element_count`; `vmiop_error_resource` when not enough memory is available
(modelled by the `avail` flag); on success the returned buffer has its
reference count set to 1, `release_p` set to the standard `vmiop_buffer_free`
routine, and the first element of the element array pointing at the whole
allocated data area (offset 0, length `data_size`), the remaining elements
being zero-initialized. -/
def vmiop_buffer_alloc (avail : Bool) (source_class destination_class : Nat)
    (element_count data_size : Nat) :
    Except vmiop_error_e vmiop_buffer_t :=
  if ¬ (classValid source_class ∧ classValid destination_class) ∨ element_count = 0 then
    .error .vmiop_error_inval
  else if ¬ avail then
    .error .vmiop_error_resource
  else
    .ok
      { list_head := (none, none)
        source_class := source_class
        destination_class := destination_class
        release_p := .standard_free
        references := 1
        count := element_count
        element :=
          ⟨some 0, data_size⟩ :: List.replicate (element_count - 1) ⟨none, 0⟩
        discard_config := false }

/-- Shallow embedding of `enum vmiop_direction_e` (header lines 1334-1337):
`down` is toward the devices, `up` toward the virtual machine. -/
inductive vmiop_direction_e
  | vmiop_direction_down
  | vmiop_direction_up
  deriving DecidableEq, Repr

/-- Shallow embedding of `vmiop_migration_stage_e` (header lines 1349-1359). -/
inductive vmiop_migration_stage_e
  | vmiop_migration_none
  | vmiop_migration_pre_copy
  | vmiop_migration_stop_and_copy
  | vmiop_migration_resume
  deriving DecidableEq, Repr

/-- Modelled from the spec: the legal successor of each migration stage in
the cycle `none → preCopy → stopAndCopy → resume → none`. -/
def stageSuccessor : vmiop_migration_stage_e → vmiop_migration_stage_e
  | .vmiop_migration_none => .vmiop_migration_pre_copy
  | .vmiop_migration_pre_copy => .vmiop_migration_stop_and_copy
  | .vmiop_migration_stop_and_copy => .vmiop_migration_resume
  | .vmiop_migration_resume => .vmiop_migration_none

/-- Modelled from the spec: the body of the plugin's `notify_device`
callback (`vmiop_plugin_notify_device`, header lines 1633-1635) is not in
the header.  Per the contract the plugin tracks its own last-known stage
and rejects a requested stage that is not the legal successor with
`vmiop_error_inval`, leaving the stage unchanged; a legal transition
succeeds and updates the stage. -/
def vmiop_plugin_notify_device (last stage : vmiop_migration_stage_e) :
    vmiop_error_e × vmiop_migration_stage_e :=
  if stage = stageSuccessor last then (.vmiop_success, stage)
  else (.vmiop_error_inval, last)

/-- Modelled from the spec: the body of the plugin's `read_device_buffer`
callback (`vmiop_plugin_read_device_buffer`, header lines 1658-1663) is not
in the header.  The serialized device state still pending transfer is a
byte list; a call with capacity `buffer_size` fills the caller's buffer
with up to `buffer_size` bytes and returns
(written chunk, `remaining_bytes`, new pending state); `written_bytes` is
the length of the returned chunk. -/
def vmiop_plugin_read_device_buffer (pending : List Nat) (buffer_size : Nat) :
    List Nat × Nat × List Nat :=
  (pending.take buffer_size, (pending.drop buffer_size).length, pending.drop buffer_size)

/-- Modelled from the spec: the body of the plugin's `write_device_buffer`
callback (`vmiop_plugin_write_device_buffer`, header lines 1683-1686) is
not in the header.  The chunk is appended to the byte stream received so
far on the fresh instance. -/
def vmiop_plugin_write_device_buffer (received chunk : List Nat) : List Nat :=
  received ++ chunk

/-- The read side driven by the host: one `read_device_buffer` call per
capacity in `caps`, recording (chunk, remaining_bytes) per call and
stopping as soon as `remaining_bytes = 0` is reported (the host must not
terminate the device model before observing zero, and stops reading once
it does). -/
def readStream : List Nat → List Nat → List (List Nat × Nat)
  | _, [] => []
  | pending, c :: cs =>
    let r := vmiop_plugin_read_device_buffer pending c
    (r.1, r.2.1) :: (if r.2.1 = 0 then [] else readStream r.2.2 cs)

/-- Concatenation, in call order, of the chunks produced by a sequence of
`read_device_buffer` calls. -/
def readChunks (calls : List (List Nat × Nat)) : List Nat :=
  (calls.map Prod.fst).flatten

/-- How many calls of a read sequence reported `remaining_bytes = 0`. -/
def zeroRemainingCount (calls : List (List Nat × Nat)) : Nat :=
  (calls.filter (fun c => c.2 == 0)).length

/-- The write side: the state reconstructed on a fresh instance after
feeding a list of chunks through `write_device_buffer` in call order,
starting from an empty received stream. -/
def writeStream (chunks : List (List Nat)) : List Nat :=
  chunks.foldl vmiop_plugin_write_device_buffer []

/-- Registry entry for a registered plugin, carrying the fields of
`vmiop_plugin_t` (header lines 1893-1926) that routing consults, plus the
handle assigned at registration. -/
structure vmiop_plugin_model where
  handle : Nat
  plugin_class : Nat
  input_classes : Nat
  connect_down_allowed : Bool
  connect_up_allowed : Bool
  deriving DecidableEq, Repr

/-- State touched by message delivery: the registered plugin chain, ordered
from the device end (bottom) to the virtual-machine end (top), and the log
of `put_message` callback invocations (recipient handle, buffer source
class).  Delivery mutates nothing else. -/
structure RouterState where
  chain : List vmiop_plugin_model
  put_message_log : List (Nat × Nat)
  deriving DecidableEq, Repr

/-- Position of the plugin with the given handle in the chain. -/
def findPluginIdx (chain : List vmiop_plugin_model) (h : Nat) : Option Nat :=
  chain.findIdx? (fun p => p.handle == h)

/-- Modelled from the spec: the body of `vmiop_deliver_message` is not in
the header (only its `extern` declaration and doc comment, lines
1412-1433).  Per the contract: `vmiop_error_inval` for a NULL `buf_p`;
`vmiop_error_not_found` when the caller handle does not match a registered
plugin or the caller is at the bottom for downstream or at the top for
upstream; otherwise the single neighbor in the requested direction is
checked with `vmiop_plugin_class_in_set` against the buffer's
`source_class` and, when it accepts, its `put_message` callback is invoked
(recorded in the log); a rejecting neighbor yields `vmiop_error_not_found`
(single-hop-then-fail).  Errors leave the state unchanged. -/
def vmiop_deliver_message (st : RouterState) (handle : Nat)
    (buf_p : Option vmiop_buffer_t) (direction : vmiop_direction_e) :
    vmiop_error_e × RouterState :=
  match buf_p with
  | none => (.vmiop_error_inval, st)
  | some buf =>
    match findPluginIdx st.chain handle with
    | none => (.vmiop_error_not_found, st)
    | some idx =>
      let nIdx : Option Nat :=
        match direction with
        | .vmiop_direction_up =>
          if idx + 1 < st.chain.length then some (idx + 1) else none
        | .vmiop_direction_down =>
          if idx = 0 then none else some (idx - 1)
      match nIdx with
      | none => (.vmiop_error_not_found, st)
      | some j =>
        match st.chain.get? j with
        | none => (.vmiop_error_not_found, st)
        | some p =>
          if vmiop_plugin_class_in_set p.input_classes buf.source_class = some true then
            (.vmiop_success,
             { st with put_message_log :=
                 st.put_message_log ++ [(p.handle, buf.source_class)] })
          else (.vmiop_error_not_found, st)

/-- What a mutex-acquire call does, as observed by the caller: return
immediately with an error code, block until the lock becomes available and
then acquire it, or block until an absolute deadline and then time out
(the last outcome exists only in the deadline-based interface that claim
C6 describes). -/
inductive LockWaitOutcome
  | ret (e : vmiop_error_e)
  | blocksUntilAvailable
  | blocksUntilDeadline (t : Nat)
  deriving DecidableEq, Repr

/-- What the lock handle passed to `vmiop_lock` refers to, and whether the
lock is currently available. -/
structure LockEnv where
  isNull : Bool
  isLockVar : Bool
  available : Bool
  deriving DecidableEq, Repr

/-- Modelled from the spec: the body of `vmiop_lock` is not in the header
(only its `extern` declaration and doc comment, lines 1102-1119).  Per the
contract its wait mode is the boolean `try_only`: `vmiop_error_inval` when
the handle is `VMIOP_HANDLE_NULL`, `vmiop_error_not_found` when it does
not refer to a lock variable, success when the lock is available,
`vmiop_error_timeout` when `try_only` is true and the lock is unavailable,
and an indefinite block until available when `try_only` is false. -/
def vmiop_lock (env : LockEnv) (try_only : Bool) : LockWaitOutcome :=
  if env.isNull then .ret .vmiop_error_inval
  else if ¬ env.isLockVar then .ret .vmiop_error_not_found
  else if env.available then .ret .vmiop_success
  else if try_only then .ret .vmiop_error_timeout
  else .blocksUntilAvailable

/-- The mutex-acquire interface exactly as claim C6 words it: the caller
supplies either no deadline (block indefinitely) or an absolute deadline
`some t`; a deadline at or before the current time behaves as a zero-wait
poll returning `vmiop_error_timeout` when the lock is unavailable, and a
future deadline blocks until that deadline before timing out. -/
def vmiop_lock_claimed (env : LockEnv) (deadline : Option Nat) (now : Nat) :
    LockWaitOutcome :=
  if env.isNull then .ret .vmiop_error_inval
  else if ¬ env.isLockVar then .ret .vmiop_error_not_found
  else if env.available then .ret .vmiop_success
  else
    match deadline with
    | none => .blocksUntilAvailable
    | some t => if t ≤ now then .ret .vmiop_error_timeout else .blocksUntilDeadline t

/-- A valid lock handle whose lock is currently held by another thread. -/
def lockEnvBusy : LockEnv :=
  { isNull := false, isLockVar := true, available := false }

/-- Folding `vmiop_plugin_write_device_buffer` over a chunk list from the
empty received stream concatenates the chunks in call order. -/
theorem writeStream_eq_flatten (chunks : List (List Nat)) :
    writeStream chunks = chunks.flatten := by
  have aux : ∀ (cs : List (List Nat)) (acc : List Nat),
      cs.foldl vmiop_plugin_write_device_buffer acc = acc ++ cs.flatten := by
    intro cs
    induction cs with
    | nil => intro acc; simp
    | cons c cs ih =>
      intro acc
      simp only [List.foldl_cons, List.flatten_cons, vmiop_plugin_write_device_buffer, ih,
        List.append_assoc]
  simpa [writeStream] using aux chunks []

/-- The chunk concatenation of a read sequence decomposes on its first call. -/
theorem readChunks_cons (x : List Nat × Nat) (l : List (List Nat × Nat)) :
    readChunks (x :: l) = x.1 ++ readChunks l := by
  simp [readChunks]

/-- The zero-remaining count of a read sequence decomposes on its first call. -/
theorem zeroRemainingCount_cons (x : List Nat × Nat) (l : List (List Nat × Nat)) :
    zeroRemainingCount (x :: l) = (if x.2 = 0 then 1 else 0) + zeroRemainingCount l := by
  by_cases h : x.2 = 0 <;> simp [zeroRemainingCount, List.filter_cons, h, Nat.add_comm]

/-- Driving `read_device_buffer` with enough calls to exhaust the pending
state produces the full state as the concatenation of its chunks, and
reports `remaining_bytes = 0` exactly once. -/
theorem readStream_exhausts (caps : List Nat) :
    ∀ pending : List Nat, caps ≠ [] → pending.length ≤ caps.sum →
      readChunks (readStream pending caps) = pending ∧
      zeroRemainingCount (readStream pending caps) = 1 := by
  induction caps with
  | nil => intro pending hne _; exact absurd rfl hne
  | cons c cs ih =>
    intro pending _ hsum
    by_cases h0 : (pending.drop c).length = 0
    · have hlen : pending.length ≤ c := by
        have := List.length_drop c pending
        omega
      have hunfold : readStream pending (c :: cs)
          = [(pending.take c, (pending.drop c).length)] := by
        simp [readStream, vmiop_plugin_read_device_buffer, h0]
      rw [hunfold, readChunks_cons, zeroRemainingCount_cons]
      simp [readChunks, zeroRemainingCount, h0, List.take_of_length_le hlen]
    · have hcne : cs ≠ [] := by
        rintro rfl
        have := List.length_drop c pending
        simp at hsum
        omega
      have hsum' : (pending.drop c).length ≤ cs.sum := by
        have := List.length_drop c pending
        simp [List.sum_cons] at hsum
        omega
      obtain ⟨ih1, ih2⟩ := ih (pending.drop c) hcne hsum'
      have hunfold : readStream pending (c :: cs)
          = (pending.take c, (pending.drop c).length)
              :: readStream (pending.drop c) cs := by
        simp only [readStream, vmiop_plugin_read_device_buffer]
        rw [if_neg h0]
      have h0' : pending.length - c ≠ 0 := by
        have := List.length_drop c pending
        omega
      rw [hunfold, readChunks_cons, zeroRemainingCount_cons]
      constructor
      · rw [ih1]
        exact List.take_append_drop c pending
      · simp [h0, h0', ih2]

/-- Claim C2: for every migration, concatenating all `read_device_buffer`
chunks in call order yields the full serialized device state, the read side
reports `remaining_bytes = 0` exactly once (terminating the stream), and
feeding that byte stream back through `write_device_buffer` in call order,
under any chunking chosen by the caller, reproduces the original device
state on a fresh instance. -/
theorem C2_migration_round_trip (state caps : List Nat) (chunks : List (List Nat))
    (hne : caps ≠ []) (hsum : state.length ≤ caps.sum)
    (hchunks : chunks.flatten = readChunks (readStream state caps)) :
    readChunks (readStream state caps) = state ∧
    zeroRemainingCount (readStream state caps) = 1 ∧
    writeStream chunks = state := by
  obtain ⟨h1, h2⟩ := readStream_exhausts caps state hne hsum
  exact ⟨h1, h2, by rw [writeStream_eq_flatten, hchunks, h1]⟩

/-- Witness for claim C2 at a concrete migration: state `[1, 2, 3]`, read
capacities `[2, 2]`, write chunking `[[1], [2, 3]]`. -/
theorem C2_witness :
    readChunks (readStream [1, 2, 3] [2, 2]) = [1, 2, 3] ∧
    zeroRemainingCount (readStream [1, 2, 3] [2, 2]) = 1 ∧
    writeStream [[1], [2, 3]] = [1, 2, 3] :=
  C2_migration_round_trip [1, 2, 3] [2, 2] [[1], [2, 3]]
    (by decide) (by decide) (by decide)

/-- Claim C3: the stage-notification operation fails with
`vmiop_error_inval`, leaving the last-known stage unchanged, whenever the
requested stage is not the legal successor of the device's last-known
stage in the cycle none → preCopy → stopAndCopy → resume → none. -/
theorem C3_notify_stage_inval (last stage : vmiop_migration_stage_e)
    (h : stage ≠ stageSuccessor last) :
    vmiop_plugin_notify_device last stage = (.vmiop_error_inval, last) := by
  simp [vmiop_plugin_notify_device, h]

/-- Witness for claim C3: notifying `resume` when the last-known stage is
`none` returns `vmiop_error_inval`. -/
theorem C3_witness :
    vmiop_plugin_notify_device .vmiop_migration_none .vmiop_migration_resume
      = (.vmiop_error_inval, .vmiop_migration_none) :=
  C3_notify_stage_inval .vmiop_migration_none .vmiop_migration_resume (by decide)

/-- Claim C1 (code evaluated at the failing input): the static inline
`vmiop_buffer_release` executes `buf_p->release_p(buf_p)` unconditionally,
so a NULL buffer reference is dereferenced before any validation can run;
the call is an undefined access (`none`) and in particular never produces
the documented `vmiop_error_inval` return, whatever release routine `f`
custom buffers carry. -/
theorem C1_null_release_undefined
    (f : Nat → vmiop_buffer_t → vmiop_error_e × Option vmiop_buffer_t) :
    vmiop_buffer_release f none = none :=
  rfl

/-- Claim C4: message delivery with a caller handle that does not resolve
to a registered plugin, or from a caller with no neighbor in the requested
direction (bottom of the chain for downstream, top for upstream), returns
`vmiop_error_not_found` and leaves the router state unchanged: no
`put_message` callback is recorded and nothing else is mutated. -/
theorem C4_deliver_not_found (st : RouterState) (h : Nat)
    (buf : vmiop_buffer_t) (dir : vmiop_direction_e) :
    (findPluginIdx st.chain h = none →
      vmiop_deliver_message st h (some buf) dir = (.vmiop_error_not_found, st)) ∧
    (∀ i, findPluginIdx st.chain h = some i →
      (dir = .vmiop_direction_down ∧ i = 0) ∨
        (dir = .vmiop_direction_up ∧ ¬ i + 1 < st.chain.length) →
      vmiop_deliver_message st h (some buf) dir = (.vmiop_error_not_found, st)) := by
  constructor
  · intro hf
    simp [vmiop_deliver_message, hf]
  · rintro i hf (⟨hd, hi⟩ | ⟨hd, hi⟩) <;> subst hd <;>
      simp [vmiop_deliver_message, hf, hi]

/-- Registry with a single registered plugin (handle 1), for the C4 witness. -/
def routerSt0 : RouterState :=
  { chain := [{ handle := 1, plugin_class := 1, input_classes := 512,
                connect_down_allowed := true, connect_up_allowed := true }],
    put_message_log := [] }

/-- A concrete message buffer for the C4 witness. -/
def msgBuf0 : vmiop_buffer_t :=
  { list_head := (none, none), source_class := 1, destination_class := 9,
    release_p := .standard_free, references := 1, count := 1,
    element := [⟨some 0, 8⟩], discard_config := false }

/-- Witness for claim C4: delivering with the unregistered handle 99
returns `vmiop_error_not_found` and leaves the state unchanged. -/
theorem C4_witness :
    vmiop_deliver_message routerSt0 99 (some msgBuf0) .vmiop_direction_up
      = (.vmiop_error_not_found, routerSt0) :=
  (C4_deliver_not_found routerSt0 99 msgBuf0 .vmiop_direction_up).1 (by decide)

/-- Claim C5: a class set is a bitmask with one bit per class; for every
class `y` representable in the 32-bit mask, `y` is a member of its own
singleton mask, and for every distinct class `z` in that range, `z` is not
a member of the singleton mask of `y`.  (The routing filter of
`vmiop_deliver_message` applies exactly `vmiop_plugin_class_in_set` to the
neighbor's `input_classes` and the buffer's `source_class`.) -/
theorem C5_class_set_membership :
    (∀ y < 32,
      vmiop_plugin_class_in_set ((vmiop_plugin_class_to_mask y).getD 0) y
        = some true) ∧
    (∀ y < 32, ∀ z < 32, y ≠ z →
      vmiop_plugin_class_in_set ((vmiop_plugin_class_to_mask y).getD 0) z
        = some false) := by
  decide

/-- Witness for claim C5 at classes 9 (presentation) and 1 (display). -/
theorem C5_witness :
    vmiop_plugin_class_in_set ((vmiop_plugin_class_to_mask 9).getD 0) 9
      = some true ∧
    vmiop_plugin_class_in_set ((vmiop_plugin_class_to_mask 9).getD 0) 1
      = some false :=
  ⟨C5_class_set_membership.1 9 (by decide),
   C5_class_set_membership.2 9 (by decide) 1 (by decide) (by decide)⟩

/-- Counterexample to claim C6 as stated: with a valid lock handle whose
lock is held by another thread, the behavior the claim requires for an
absolute deadline in the future (block until the deadline, then time out)
is produced by neither admissible value of `vmiop_lock`'s actual wait-mode
argument `try_only`; the caller of `vmiop_lock` cannot supply a deadline. -/
theorem C6_counterexample :
    vmiop_lock lockEnvBusy true ≠ vmiop_lock_claimed lockEnvBusy (some 5) 0 ∧
    vmiop_lock lockEnvBusy false ≠ vmiop_lock_claimed lockEnvBusy (some 5) 0 := by
  decide

/-- Claim C6 (amended): the mutex-acquire call `vmiop_lock` takes a Boolean
`try_only` flag rather than a deadline: with a valid lock handle the caller
may block indefinitely until the lock is available (`try_only = false`) or
perform a zero-wait poll (`try_only = true`) that returns
`vmiop_error_timeout` when the lock is unavailable. -/
theorem C6_lock_try_only (env : LockEnv) (hn : env.isNull = false)
    (hl : env.isLockVar = true) (ha : env.available = false) :
    vmiop_lock env false = .blocksUntilAvailable ∧
    vmiop_lock env true = .ret .vmiop_error_timeout := by
  simp [vmiop_lock, hn, hl, ha]

/-- Witness for claim C6 (amended) at the busy-lock environment. -/
theorem C6_witness :
    vmiop_lock lockEnvBusy false = .blocksUntilAvailable ∧
    vmiop_lock lockEnvBusy true = .ret .vmiop_error_timeout :=
  C6_lock_try_only lockEnvBusy rfl rfl rfl

/-- Claim C7: buffer allocation fails with `vmiop_error_inval` when
`element_count` is zero, fails with `vmiop_error_resource` when backing
storage cannot be obtained, and on success (with `element_count ≥ 1` and
`data_size > 0`) yields a buffer whose reference count starts at 1, whose
attached release function is the standard free-on-zero routine
`vmiop_buffer_free` (which callers may replace), and whose first element
points at the whole allocated payload region. -/
theorem C7_buffer_alloc_contract (avail : Bool) (sc dc ec ds : Nat)
    (hsc : classValid sc = true) (hdc : classValid dc = true) (hec : 1 ≤ ec) :
    (∀ ds2, vmiop_buffer_alloc avail sc dc 0 ds2 = .error .vmiop_error_inval) ∧
    vmiop_buffer_alloc false sc dc ec ds = .error .vmiop_error_resource ∧
    (∀ buf, vmiop_buffer_alloc true sc dc ec ds = .ok buf →
      buf.references = 1 ∧ buf.release_p = .standard_free ∧
      (0 < ds → buf.element.head? = some ⟨some 0, ds⟩)) := by
  have hec0 : ec ≠ 0 := by omega
  refine ⟨fun ds2 => by simp [vmiop_buffer_alloc], ?_, ?_⟩
  · simp [vmiop_buffer_alloc, hsc, hdc, hec0]
  · intro buf hbuf
    simp [vmiop_buffer_alloc, hsc, hdc, hec0] at hbuf
    subst hbuf
    exact ⟨rfl, rfl, fun _ => rfl⟩

/-- The concrete buffer produced by
`vmiop_buffer_alloc true 1 9 1 64`, for the C7 witness. -/
def allocBuf0 : vmiop_buffer_t :=
  { list_head := (none, none), source_class := 1, destination_class := 9,
    release_p := .standard_free, references := 1, count := 1,
    element := [⟨some 0, 64⟩], discard_config := false }

/-- Witness for claim C7 at source class 1 (display), destination class 9
(presentation), one element, 64 payload bytes. -/
theorem C7_witness :
    vmiop_buffer_alloc true 1 9 0 64 = .error .vmiop_error_inval ∧
    vmiop_buffer_alloc false 1 9 1 64 = .error .vmiop_error_resource ∧
    (allocBuf0.references = 1 ∧ allocBuf0.release_p = .standard_free ∧
      allocBuf0.element.head? = some ⟨some 0, 64⟩) :=
  have h := C7_buffer_alloc_contract true 1 9 1 64 rfl rfl (by decide)
  have h3 := h.2.2 allocBuf0 rfl
  ⟨h.1 64,
   (C7_buffer_alloc_contract false 1 9 1 64 rfl rfl (by decide)).2.1,
   h3.1, h3.2.1, h3.2.2 (by decide)⟩

/-- Claim C8: the error codes form exactly the closed nine-element taxonomy
success 0, invalid-argument 1, resource-unavailable 2, range 3, read-only 4,
not-found 5, no-address-space 6, timeout 7, not-allowed-in-callback 8; the
enumerator values cover exactly 0 through 8 and the maximum value is 8. -/
theorem C8_error_taxonomy :
    vmiop_error_min = 0 ∧ vmiop_error_max = 8 ∧
    Finset.image vmiop_error_e.toCode Finset.univ = Finset.range 9 ∧
    (Finset.univ (α := vmiop_error_e)).card = 9 ∧
    vmiop_error_e.toCode .vmiop_success = 0 ∧
    vmiop_error_e.toCode .vmiop_error_inval = 1 ∧
    vmiop_error_e.toCode .vmiop_error_resource = 2 ∧
    vmiop_error_e.toCode .vmiop_error_range = 3 ∧
    vmiop_error_e.toCode .vmiop_error_read_only = 4 ∧
    vmiop_error_e.toCode .vmiop_error_not_found = 5 ∧
    vmiop_error_e.toCode .vmiop_error_no_address_space = 6 ∧
    vmiop_error_e.toCode .vmiop_error_timeout = 7 ∧
    vmiop_error_e.toCode .vmiop_error_not_allowed_in_callback = vmiop_error_max := by
  decide

/-- Claim C9: the macro form and the inline-function form of the
class-to-mask conversion have the same C body and agree on every class
value, including those on which both are undefined. -/
theorem C9_macro_inline_equiv :
    ∀ y : Nat, vmiop_const_plugin_class_to_mask y = vmiop_plugin_class_to_mask y :=
  fun _ => rfl

/-- Counterexample to claim C10 as stated: at class value 32 the conversion
is not the 64-bit shift reduced mod `2 ^ 32` (which would be the defined
mask 0 making every membership test false); the cast to the 32-bit
class-set type applies to `1ul` before the shift, so the shift count
equals the operand width and the result is undefined, not `some 0`. -/
theorem C10_counterexample :
    vmiop_plugin_class_to_mask 32 ≠ some 0 ∧
    vmiop_plugin_class_in_set 7 32 ≠ some false := by
  decide

/-- Claim C10 (amended): for every class value `y ≥ 32` the shift count is
at least the 32-bit width of `vmiop_plugin_class_set_t`, so the conversion
`vmiop_plugin_class_to_mask` — and with it the membership test
`vmiop_plugin_class_in_set` — is undefined in C (modelled as `none`) rather
than a defined zero mask; membership testing is therefore meaningful only
for classes 0 through 31, and all defined classes (maximum
`vmiop_plugin_class_max = 9`) fall in that range. -/
theorem C10_mask_undefined_above_width (x y : Nat) (h : 32 ≤ y) :
    vmiop_plugin_class_to_mask y = none ∧
    vmiop_plugin_class_in_set x y = none ∧
    vmiop_plugin_class_max < 32 := by
  have hy : ¬ y < 32 := by omega
  refine ⟨?_, ?_, by decide⟩
  · simp [vmiop_plugin_class_to_mask, uint32_shl, hy]
  · simp [vmiop_plugin_class_in_set, vmiop_plugin_class_to_mask, uint32_shl, hy]

/-- Witness for claim C10 (amended) at class set 7 and class value 32. -/
theorem C10_witness :
    vmiop_plugin_class_to_mask 32 = none ∧
    vmiop_plugin_class_in_set 7 32 = none ∧
    vmiop_plugin_class_max < 32 :=
  C10_mask_undefined_above_width 7 32 (by decide)
